import Mathlib

/-!
Verification of the conversational school-registration form
(`wingservice/privateschool`): a shallow embedding of the shared form
record, the interview "next missing field" logic, the form mutation
handlers, the live-session resource state machine, the tool dispatcher,
the submission API error handling, and the base64 audio transport codec,
with theorems checking the specification's claims against the code.
-/

namespace SchoolApp

/-- The `SchoolData` interface from `src/types.ts`: thirteen string fields
(file fields store Base64 strings). -/
structure SchoolData where
  schoolName : String
  udiseCode : String
  block : String
  district : String
  level : String
  principalName : String
  societyTrustName : String
  phone : String
  email : String
  schoolPicture : String
  principalPicture : String
  registrationCertificatePrimary : String
  registrationCertificateUpper : String
deriving DecidableEq, Repr

/-- The key set of `SchoolData` (`SchoolDataKey = keyof SchoolData` in
`src/types.ts`). -/
inductive SchoolDataKey where
  | schoolName | udiseCode | block | district | level
  | principalName | societyTrustName | phone | email
  | schoolPicture | principalPicture
  | registrationCertificatePrimary | registrationCertificateUpper
deriving DecidableEq, Repr

/-- Dynamic field read `data[key]`. -/
def SchoolData.get (d : SchoolData) : SchoolDataKey → String
  | .schoolName => d.schoolName
  | .udiseCode => d.udiseCode
  | .block => d.block
  | .district => d.district
  | .level => d.level
  | .principalName => d.principalName
  | .societyTrustName => d.societyTrustName
  | .phone => d.phone
  | .email => d.email
  | .schoolPicture => d.schoolPicture
  | .principalPicture => d.principalPicture
  | .registrationCertificatePrimary => d.registrationCertificatePrimary
  | .registrationCertificateUpper => d.registrationCertificateUpper

/-- Dynamic field write `{ ...d, [key]: v }`. -/
def SchoolData.set (d : SchoolData) (k : SchoolDataKey) (v : String) : SchoolData :=
  match k with
  | .schoolName => { d with schoolName := v }
  | .udiseCode => { d with udiseCode := v }
  | .block => { d with block := v }
  | .district => { d with district := v }
  | .level => { d with level := v }
  | .principalName => { d with principalName := v }
  | .societyTrustName => { d with societyTrustName := v }
  | .phone => { d with phone := v }
  | .email => { d with email := v }
  | .schoolPicture => { d with schoolPicture := v }
  | .principalPicture => { d with principalPicture := v }
  | .registrationCertificatePrimary => { d with registrationCertificatePrimary := v }
  | .registrationCertificateUpper => { d with registrationCertificateUpper := v }

/-- `INITIAL_DATA` from `src/components/SchoolForm.tsx`: all fields empty. -/
def INITIAL_DATA : SchoolData :=
  { schoolName := "", udiseCode := "", block := "", district := "", level := ""
    principalName := "", societyTrustName := "", phone := "", email := ""
    schoolPicture := "", principalPicture := ""
    registrationCertificatePrimary := "", registrationCertificateUpper := "" }

/-- `INTERVIEW_ORDER` from `src/components/ChatBot.tsx`: the ordered
(key, label) pairs guiding the interview over the textual fields. -/
def INTERVIEW_ORDER : List (SchoolDataKey × String) :=
  [ (.schoolName, "School Name"),
    (.udiseCode, "UDISE Code"),
    (.block, "Block (e.g., Khowai, Teliamura)"),
    (.district, "District"),
    (.level, "Level (Primary, Upper Primary)"),
    (.principalName, "Principal Name"),
    (.societyTrustName, "Name of Society or Trust"),
    (.phone, "Phone Number"),
    (.email, "Email Address") ]

/-- `getNextMissingField` from `src/components/ChatBot.tsx` (lines 37-55).
A JavaScript string is falsy exactly when it is empty, so `!data[field.key]`
is modelled as equality with `""`. `undefined` data is modelled as `none`. -/
def getNextMissingField (data : Option SchoolData) : String :=
  match data with
  | none => (INTERVIEW_ORDER.get ⟨0, by decide⟩).2
  | some d =>
    match INTERVIEW_ORDER.find? (fun field => d.get field.1 == "") with
    | some field => field.2
    | none =>
      if d.schoolPicture == "" then "School Picture (Please upload via UI)"
      else if d.principalPicture == "" then "Principal Picture (Please upload via UI)"
      else if d.registrationCertificatePrimary == "" then
        "Primary Registration PDF (Please upload via UI)"
      else if d.level == "Upper Primary (1-8)" && d.registrationCertificateUpper == "" then
        "Upper Primary Registration PDF (Please upload via UI)"
      else "All fields are filled. Ready to submit?"

/-- Specification-level restatement of the "next missing field" contract,
written as a flat decision chain following the spec's words: the first
textual field in the fixed interview order whose value is empty; otherwise
the first empty attachment in the fixed order school picture, principal
picture, primary certificate, then the upper-primary certificate only when
`level = "Upper Primary (1-8)"`; otherwise the ready-to-submit sentinel. -/
def nextMissingFieldSpec (d : SchoolData) : String :=
  if d.schoolName = "" then "School Name"
  else if d.udiseCode = "" then "UDISE Code"
  else if d.block = "" then "Block (e.g., Khowai, Teliamura)"
  else if d.district = "" then "District"
  else if d.level = "" then "Level (Primary, Upper Primary)"
  else if d.principalName = "" then "Principal Name"
  else if d.societyTrustName = "" then "Name of Society or Trust"
  else if d.phone = "" then "Phone Number"
  else if d.email = "" then "Email Address"
  else if d.schoolPicture = "" then "School Picture (Please upload via UI)"
  else if d.principalPicture = "" then "Principal Picture (Please upload via UI)"
  else if d.registrationCertificatePrimary = "" then
    "Primary Registration PDF (Please upload via UI)"
  else if d.level = "Upper Primary (1-8)" ∧ d.registrationCertificateUpper = "" then
    "Upper Primary Registration PDF (Please upload via UI)"
  else "All fields are filled. Ready to submit?"

/-- An `update_school_data` argument mapping: `Partial<SchoolData>`
restricted to the eleven properties declared in `updateSchoolDataTool`
(`src/components/ChatBot.tsx`, lines 71-90); an absent property is `none`. -/
structure SchoolDataUpdate where
  schoolName : Option String := none
  udiseCode : Option String := none
  block : Option String := none
  district : Option String := none
  level : Option String := none
  principalName : Option String := none
  societyTrustName : Option String := none
  phone : Option String := none
  email : Option String := none
  registrationCertificatePrimary : Option String := none
  registrationCertificateUpper : Option String := none
deriving DecidableEq, Repr

/-- The object spread `{ ...prev, ...updates }`: every property present in
`updates` overrides `prev`. -/
def mergeUpdate (prev : SchoolData) (u : SchoolDataUpdate) : SchoolData :=
  { schoolName := u.schoolName.getD prev.schoolName
    udiseCode := u.udiseCode.getD prev.udiseCode
    block := u.block.getD prev.block
    district := u.district.getD prev.district
    level := u.level.getD prev.level
    principalName := u.principalName.getD prev.principalName
    societyTrustName := u.societyTrustName.getD prev.societyTrustName
    phone := u.phone.getD prev.phone
    email := u.email.getD prev.email
    schoolPicture := prev.schoolPicture
    principalPicture := prev.principalPicture
    registrationCertificatePrimary :=
      u.registrationCertificatePrimary.getD prev.registrationCertificatePrimary
    registrationCertificateUpper :=
      u.registrationCertificateUpper.getD prev.registrationCertificateUpper }

/-- The truthiness test `updates.level && updates.level === 'Primary (1-5)'`
from `handleVoiceUpdate`. -/
def levelSetToPrimary (o : Option String) : Bool :=
  match o with
  | some v => v != "" && v == "Primary (1-5)"
  | none => false

/-- `handleChange` from `src/components/SchoolForm.tsx` (lines 73-92),
restricted to its effect on the form record: write the named field, and if
the name is `level` and the value is `Primary (1-5)`, clear the upper
certificate in the same mutation. -/
def handleChange (prev : SchoolData) (name : SchoolDataKey) (value : String) : SchoolData :=
  let newData := prev.set name value
  if name = SchoolDataKey.level ∧ value = "Primary (1-5)" then
    { newData with registrationCertificateUpper := "" }
  else newData

/-- `handleVoiceUpdate` from `src/components/SchoolForm.tsx` (lines 107-121),
restricted to its effect on the form record: merge the update, and if the
update sets `level` to `Primary (1-5)`, clear the upper certificate in the
same mutation. -/
def handleVoiceUpdate (prev : SchoolData) (updates : SchoolDataUpdate) : SchoolData :=
  let newData := mergeUpdate prev updates
  if levelSetToPrimary updates.level then
    { newData with registrationCertificateUpper := "" }
  else newData

/-- Claim C1: `getNextMissingField` is total and computes, for any defined
record, the first field in the fixed interview order whose value is empty,
then the attachments in fixed order (upper certificate only for level
`Upper Primary (1-8)`), then the ready-to-submit sentinel; undefined data
yields the first interview label. Totality holds by construction: the
embedding is a total function. -/
theorem c1_next_missing_field_correct :
    ∀ d : SchoolData,
      getNextMissingField (some d) = nextMissingFieldSpec d ∧
      getNextMissingField none = "School Name" := by
  intro d
  refine ⟨?_, rfl⟩
  simp only [getNextMissingField, nextMissingFieldSpec, INTERVIEW_ORDER]
  by_cases h1 : d.schoolName = ""
  · rw [List.find?_cons_of_pos _ (by simp [SchoolData.get, h1])]
    simp [h1]
  · rw [List.find?_cons_of_neg _ (by simp [SchoolData.get, beq_iff_eq, h1])]
    by_cases h2 : d.udiseCode = ""
    · rw [List.find?_cons_of_pos _ (by simp [SchoolData.get, h2])]
      simp [h1, h2]
    · rw [List.find?_cons_of_neg _ (by simp [SchoolData.get, beq_iff_eq, h2])]
      by_cases h3 : d.block = ""
      · rw [List.find?_cons_of_pos _ (by simp [SchoolData.get, h3])]
        simp [h1, h2, h3]
      · rw [List.find?_cons_of_neg _ (by simp [SchoolData.get, beq_iff_eq, h3])]
        by_cases h4 : d.district = ""
        · rw [List.find?_cons_of_pos _ (by simp [SchoolData.get, h4])]
          simp [h1, h2, h3, h4]
        · rw [List.find?_cons_of_neg _ (by simp [SchoolData.get, beq_iff_eq, h4])]
          by_cases h5 : d.level = ""
          · rw [List.find?_cons_of_pos _ (by simp [SchoolData.get, h5])]
            simp [h1, h2, h3, h4, h5]
          · rw [List.find?_cons_of_neg _ (by simp [SchoolData.get, beq_iff_eq, h5])]
            by_cases h6 : d.principalName = ""
            · rw [List.find?_cons_of_pos _ (by simp [SchoolData.get, h6])]
              simp [h1, h2, h3, h4, h5, h6]
            · rw [List.find?_cons_of_neg _ (by simp [SchoolData.get, beq_iff_eq, h6])]
              by_cases h7 : d.societyTrustName = ""
              · rw [List.find?_cons_of_pos _ (by simp [SchoolData.get, h7])]
                simp [h1, h2, h3, h4, h5, h6, h7]
              · rw [List.find?_cons_of_neg _ (by simp [SchoolData.get, beq_iff_eq, h7])]
                by_cases h8 : d.phone = ""
                · rw [List.find?_cons_of_pos _ (by simp [SchoolData.get, h8])]
                  simp [h1, h2, h3, h4, h5, h6, h7, h8]
                · rw [List.find?_cons_of_neg _ (by simp [SchoolData.get, beq_iff_eq, h8])]
                  by_cases h9 : d.email = ""
                  · rw [List.find?_cons_of_pos _ (by simp [SchoolData.get, h9])]
                    simp [h1, h2, h3, h4, h5, h6, h7, h8, h9]
                  · rw [List.find?_cons_of_neg _ (by simp [SchoolData.get, beq_iff_eq, h9])]
                    simp only [List.find?]
                    simp [h1, h2, h3, h4, h5, h6, h7, h8, h9, beq_iff_eq,
                      Bool.and_eq_true]

/-- Claim C2: applying an update that sets `level` to `Primary (1-5)` leaves
the upper-primary certificate empty, whatever its prior value, through both
the manual form change handler and the tool-dispatch (voice/chat) update
path. -/
theorem c2_level_transition_clears_upper :
    ∀ (prev : SchoolData) (u : SchoolDataUpdate) (name : SchoolDataKey) (value : String),
      u.level = some "Primary (1-5)" →
      name = SchoolDataKey.level →
      value = "Primary (1-5)" →
      (handleVoiceUpdate prev u).registrationCertificateUpper = "" ∧
      (handleChange prev name value).registrationCertificateUpper = "" := by
  intro prev u name value hu hn hv
  subst hn hv
  constructor
  · simp [handleVoiceUpdate, levelSetToPrimary, hu]
  · simp [handleChange]

/-- Witness for C2 at a concrete record whose upper certificate was
previously filled. -/
theorem c2_level_transition_clears_upper_witness :
    (handleVoiceUpdate
        { INITIAL_DATA with level := "Upper Primary (1-8)",
                            registrationCertificateUpper := "cert.pdf" }
        { level := some "Primary (1-5)" }).registrationCertificateUpper = "" ∧
    (handleChange
        { INITIAL_DATA with level := "Upper Primary (1-8)",
                            registrationCertificateUpper := "cert.pdf" }
        SchoolDataKey.level "Primary (1-5)").registrationCertificateUpper = "" :=
  c2_level_transition_clears_upper _ _ _ _ rfl rfl rfl

/-- The live-session resource state of the `ChatBot` component
(`src/components/ChatBot.tsx`): the two connection flags, the caption, and
the five refs `mediaStreamRef`, `sessionRef`, `audioContextRef`,
`inputAudioContextRef` (a `true` handle models a non-null ref),
`nextStartTimeRef` (the playback cursor) and `sourcesRef` (modelled by the
size of the pending-sources set). -/
structure LiveState where
  isLiveConnected : Bool
  isConnecting : Bool
  liveCaption : String
  mediaStream : Bool
  sessionHandle : Bool
  audioContext : Bool
  inputAudioContext : Bool
  nextStartTime : ℚ
  sourceCount : Nat
deriving DecidableEq, Repr

/-- The component's initial live-session state: all refs null, cursor 0,
no pending sources, caption empty. -/
def initialLiveState : LiveState :=
  { isLiveConnected := false, isConnecting := false, liveCaption := ""
    mediaStream := false, sessionHandle := false
    audioContext := false, inputAudioContext := false
    nextStartTime := 0, sourceCount := 0 }

/-- `disconnectLiveSession` from `src/components/ChatBot.tsx`
(lines 374-388): best-effort external teardown (track stop, session close,
context close — failures swallowed), then both flags false, caption
cleared, and all four refs nulled. The playback cursor and the
pending-sources set are not touched. -/
def disconnectLiveSession (s : LiveState) : LiveState :=
  { s with isLiveConnected := false, isConnecting := false, liveCaption := ""
           mediaStream := false, sessionHandle := false
           audioContext := false, inputAudioContext := false }

/-- Environment of one `startLiveSession` call: whether the API key is
configured, whether microphone capture is supported, and whether the user
grants microphone access. -/
structure StartEnv where
  apiKeyPresent : Bool
  micSupported : Bool
  micGranted : Bool
deriving DecidableEq, Repr

/-- The `catch` branch of `startLiveSession` (lines 353-371, state effect
only): both flags false, then `disconnectLiveSession`. -/
def startFailureRecovery (s : LiveState) : LiveState :=
  disconnectLiveSession { s with isLiveConnected := false, isConnecting := false }

/-- `startLiveSession` from `src/components/ChatBot.tsx` (lines 202-372),
up to the point where the connect promise is stored in `sessionRef`
(`onopen` fires later and is modelled separately): toggle-to-close when
connected, no-op when already connecting, otherwise acquire the stream and
contexts and store the session handle, falling to the catch branch when the
key, capture support, or permission is missing. -/
def startLiveSession (s : LiveState) (env : StartEnv) : LiveState :=
  if s.isLiveConnected then disconnectLiveSession s
  else if s.isConnecting then s
  else
    let s1 := { s with isConnecting := true, liveCaption := "Connecting..." }
    if !env.apiKeyPresent then startFailureRecovery s1
    else if !env.micSupported then startFailureRecovery s1
    else if !env.micGranted then startFailureRecovery s1
    else
      { s1 with mediaStream := true, inputAudioContext := true,
                audioContext := true, sessionHandle := true }

/-- The `onopen` callback (lines 238-263, state effect only): connected,
no longer connecting, caption set. -/
def onOpenCallback (s : LiveState) : LiveState :=
  { s with isLiveConnected := true, isConnecting := false,
           liveCaption := "Listening..." }

/-- The `onclose` callback (lines 323-327): only the two connection flags
are reset. -/
def onCloseCallback (s : LiveState) : LiveState :=
  { s with isLiveConnected := false, isConnecting := false }

/-- The `onerror` callback (lines 328-338, state effect on the session
resources): only the two connection flags are reset (the chat window is
re-opened and error messages appended, which is message-log state outside
the session resources). -/
def onErrorCallback (s : LiveState) : LiveState :=
  { s with isLiveConnected := false, isConnecting := false }

/-- Number of live session handles held by the component: the component has
a single `sessionRef` slot, holding one session when non-null. -/
def activeSessions (s : LiveState) : Nat :=
  if s.sessionHandle then 1 else 0

/-- The audio branch of `onmessage` (lines 272-288): the cursor is pulled
up to `max(nextStartTime, ctx.currentTime)`, the chunk is scheduled to
start there and added to the pending set, and the cursor advances by the
chunk's duration. Returns the updated state and the scheduled start time. -/
def onAudioChunk (s : LiveState) (now dur : ℚ) : LiveState × ℚ :=
  let start := max s.nextStartTime now
  ({ s with nextStartTime := start + dur, sourceCount := s.sourceCount + 1 }, start)

/-- Iterated `onAudioChunk` over a sequence of chunks, each arriving with
an observed output-context time and a duration; returns the scheduled
(start, duration) pairs in arrival order. -/
def scheduleRun (s : LiveState) : List (ℚ × ℚ) → List (ℚ × ℚ)
  | [] => []
  | (now, dur) :: rest =>
    let step := onAudioChunk s now dur
    (step.2, dur) :: scheduleRun step.1 rest

/-- A reachable open-session state: connected, stream and contexts held,
some playback already scheduled. -/
def openLiveState : LiveState :=
  { isLiveConnected := true, isConnecting := false, liveCaption := "Listening..."
    mediaStream := true, sessionHandle := true
    audioContext := true, inputAudioContext := true
    nextStartTime := 5, sourceCount := 2 }

/-- Every start scheduled by `scheduleRun` is at or after the cursor of the
state it was scheduled from. -/
theorem scheduleRun_head_ge (chunks : List (ℚ × ℚ)) (s : LiveState) :
    ∀ q ∈ (scheduleRun s chunks).head?, s.nextStartTime ≤ q.1 := by
  cases chunks with
  | nil => simp [scheduleRun]
  | cons c rest =>
    intro q hq
    simp [scheduleRun, onAudioChunk] at hq
    subst hq
    exact le_max_left _ _

/-- Chained scheduling property: consecutive scheduled chunks neither
overlap nor (when durations are non-negative) go backwards. -/
theorem scheduleRun_chain (chunks : List (ℚ × ℚ)) (s : LiveState)
    (hdur : ∀ p ∈ chunks, 0 ≤ p.2) :
    List.Chain' (fun p q => p.1 + p.2 ≤ q.1 ∧ p.1 ≤ q.1) (scheduleRun s chunks) := by
  induction chunks generalizing s with
  | nil => simp [scheduleRun]
  | cons c rest ih =>
    rw [scheduleRun, List.chain'_cons']
    refine ⟨?_, ih _ (fun p hp => hdur p (List.mem_cons_of_mem c hp))⟩
    intro q hq
    have hge := scheduleRun_head_ge rest (onAudioChunk s c.1 c.2).1 q hq
    have hcur : (onAudioChunk s c.1 c.2).1.nextStartTime =
        max s.nextStartTime c.1 + c.2 := rfl
    rw [hcur] at hge
    have hd : 0 ≤ c.2 := hdur c (List.mem_cons_self c rest)
    constructor
    · exact hge
    · calc (onAudioChunk s c.1 c.2).2 = max s.nextStartTime c.1 := rfl
        _ ≤ max s.nextStartTime c.1 + c.2 := by linarith
        _ ≤ q.1 := hge

/-- Claim C4: each decoded chunk is scheduled to start at
`max(playbackCursor, currentOutputTime)` with the cursor then advanced by
its duration, and over any arrival sequence of chunks with non-negative
durations the scheduled starts are non-decreasing with each start at least
the previous start plus the previous duration. -/
theorem c4_playback_scheduling (s : LiveState) (now dur : ℚ)
    (chunks : List (ℚ × ℚ)) (hdur : ∀ p ∈ chunks, 0 ≤ p.2) :
    (onAudioChunk s now dur).2 = max s.nextStartTime now ∧
    (onAudioChunk s now dur).1.nextStartTime = max s.nextStartTime now + dur ∧
    List.Chain' (fun p q => p.1 + p.2 ≤ q.1 ∧ p.1 ≤ q.1) (scheduleRun s chunks) :=
  ⟨rfl, rfl, scheduleRun_chain chunks s hdur⟩

/-- Witness for C4 at a concrete arrival sequence (durations 2, 3, 1,
context times 0, 1, 20). -/
theorem c4_playback_scheduling_witness :
    (onAudioChunk initialLiveState 1 2).2 = max initialLiveState.nextStartTime 1 ∧
    (onAudioChunk initialLiveState 1 2).1.nextStartTime =
      max initialLiveState.nextStartTime 1 + 2 ∧
    List.Chain' (fun p q => p.1 + p.2 ≤ q.1 ∧ p.1 ≤ q.1)
      (scheduleRun initialLiveState [(0, 2), (1, 3), (20, 1)]) :=
  c4_playback_scheduling initialLiveState 1 2 [(0, 2), (1, 3), (20, 1)]
    (by intro p hp; fin_cases hp <;> norm_num)

/-- Counterexample to Claim C3 as stated: starting a live session while one
is open leaves zero active sessions (the call toggles the session closed),
not exactly one. -/
theorem c3_counterexample :
    ¬ activeSessions (startLiveSession openLiveState ⟨true, true, true⟩) = 1 := by
  simp [startLiveSession, disconnectLiveSession, activeSessions, openLiveState]

/-- Claim C3 (amended): invoking session-start while a live session is open
toggles it closed — the call is exactly the teardown, afterward no session
handle, microphone stream, or audio context is held and at most one (in
fact zero) session is active; never two concurrent sessions. -/
theorem c3_toggle_semantics (s : LiveState) (env : StartEnv)
    (h : s.isLiveConnected = true) :
    startLiveSession s env = disconnectLiveSession s ∧
    (startLiveSession s env).sessionHandle = false ∧
    (startLiveSession s env).mediaStream = false ∧
    (startLiveSession s env).audioContext = false ∧
    (startLiveSession s env).inputAudioContext = false ∧
    (startLiveSession s env).isLiveConnected = false ∧
    activeSessions (startLiveSession s env) = 0 := by
  simp [startLiveSession, h, disconnectLiveSession, activeSessions]

/-- Witness for C3 (amended) at the concrete open state. -/
theorem c3_toggle_semantics_witness :
    startLiveSession openLiveState ⟨true, true, true⟩ =
      disconnectLiveSession openLiveState ∧
    (startLiveSession openLiveState ⟨true, true, true⟩).sessionHandle = false ∧
    (startLiveSession openLiveState ⟨true, true, true⟩).mediaStream = false ∧
    (startLiveSession openLiveState ⟨true, true, true⟩).audioContext = false ∧
    (startLiveSession openLiveState ⟨true, true, true⟩).inputAudioContext = false ∧
    (startLiveSession openLiveState ⟨true, true, true⟩).isLiveConnected = false ∧
    activeSessions (startLiveSession openLiveState ⟨true, true, true⟩) = 0 :=
  c3_toggle_semantics openLiveState ⟨true, true, true⟩ rfl

/-- Counterexample to Claim C6 as stated: at a reachable open state with a
held microphone stream, open contexts, cursor 5 and two pending sources,
the `onclose` and `onerror` callbacks leave the stream held, the contexts
open, and the cursor and pending-sources set unchanged. -/
theorem c6_counterexample :
    (onCloseCallback openLiveState).mediaStream = true ∧
    (onCloseCallback openLiveState).audioContext = true ∧
    (onCloseCallback openLiveState).inputAudioContext = true ∧
    (onCloseCallback openLiveState).nextStartTime = 5 ∧
    (onCloseCallback openLiveState).sourceCount = 2 ∧
    (onErrorCallback openLiveState).mediaStream = true ∧
    (onErrorCallback openLiveState).audioContext = true :=
  ⟨rfl, rfl, rfl, rfl, rfl, rfl, rfl⟩

/-- Claim C6 (amended): transitions out of Open via `onClose` or `onError`
reset only the two connection flags, leaving the microphone stream, both
audio contexts, the playback cursor and the pending-sources set untouched;
resources are released only by an explicit `disconnectLiveSession`, which
stops the stream and closes both contexts but also leaves the playback
cursor and the pending-sources set unchanged. -/
theorem c6_close_releases_nothing (s : LiveState) :
    onCloseCallback s = { s with isLiveConnected := false, isConnecting := false } ∧
    onErrorCallback s = { s with isLiveConnected := false, isConnecting := false } ∧
    (disconnectLiveSession s).mediaStream = false ∧
    (disconnectLiveSession s).audioContext = false ∧
    (disconnectLiveSession s).inputAudioContext = false ∧
    (disconnectLiveSession s).nextStartTime = s.nextStartTime ∧
    (disconnectLiveSession s).sourceCount = s.sourceCount :=
  ⟨rfl, rfl, rfl, rfl, rfl, rfl, rfl⟩

/-- Claim C9: tearing down an already-idle session (no stream, no session
handle, no contexts, not connected, not connecting — and, as in every
reachable idle state, an empty caption) changes nothing and raises no
error: `disconnectLiveSession` is idempotent on idle states. -/
theorem c9_idempotent_teardown (s : LiveState)
    (hms : s.mediaStream = false) (hsh : s.sessionHandle = false)
    (hac : s.audioContext = false) (hic : s.inputAudioContext = false)
    (hlc : s.isLiveConnected = false) (hcn : s.isConnecting = false)
    (hcap : s.liveCaption = "") :
    disconnectLiveSession s = s := by
  cases s
  simp_all [disconnectLiveSession]

/-- Witness for C9 at the component's initial (idle) state. -/
theorem c9_idempotent_teardown_witness :
    disconnectLiveSession initialLiveState = initialLiveState :=
  c9_idempotent_teardown initialLiveState rfl rfl rfl rfl rfl rfl rfl

/-- An inbound tool invocation (`fc` in the `onmessage` loop): correlation
id, tool name, and the argument mapping. -/
structure FunctionCall where
  id : String
  name : String
  args : SchoolDataUpdate
deriving DecidableEq, Repr

/-- A correlated tool response as sent by `session.sendToolResponse`
(lines 311-319): the invocation's id and name, and the `responseResult`
payload — `none` models the initial empty object `{}`, `some r` models
`{ result: r }`. -/
structure ToolResponse where
  id : String
  name : String
  response : Option String
deriving DecidableEq, Repr

/-- The body of the `onmessage` tool-call loop (lines 290-321) for one
invocation, with both form callbacks wired (as `SchoolForm` always does):
`update_school_data` merges the arguments over the current snapshot and
reports the next missing field, `submit_report` acknowledges, and any
other name leaves the payload empty. -/
def dispatchToolCall (current : SchoolData) (fc : FunctionCall) : ToolResponse :=
  let responseResult : Option String :=
    if fc.name = "update_school_data" then
      let updated := mergeUpdate current fc.args
      some ("Form updated. Next missing field is \""
        ++ getNextMissingField (some updated) ++ "\".")
    else if fc.name = "submit_report" then
      some "Submission triggered."
    else none
  { id := fc.id, name := fc.name, response := responseResult }

/-- The full `onmessage` tool-call loop: one response per inbound
invocation, in order, all computed against the snapshot current at message
arrival (`currentDataRef` is refreshed only on re-render). -/
def handleToolCalls (current : SchoolData) (fcs : List FunctionCall) : List ToolResponse :=
  fcs.map (dispatchToolCall current)

/-- Claim C5: every inbound tool invocation yields exactly one correlated
result carrying the invocation's id (and name), and an invocation whose
name is neither `update_school_data` nor `submit_report` yields the empty
payload instead of crashing the dispatcher (the embedding is a total
function). -/
theorem c5_tool_response_correlation (current : SchoolData) (fcs : List FunctionCall) :
    (handleToolCalls current fcs).length = fcs.length ∧
    List.Forall₂
      (fun fc r => r.id = fc.id ∧ r.name = fc.name ∧
        (fc.name ≠ "update_school_data" → fc.name ≠ "submit_report" →
          r.response = none))
      fcs (handleToolCalls current fcs) := by
  constructor
  · simp [handleToolCalls]
  · induction fcs with
    | nil => simp [handleToolCalls]
    | cons fc rest ih =>
      refine List.Forall₂.cons ⟨rfl, rfl, ?_⟩ ih
      intro hu hs
      simp [dispatchToolCall, hu, hs]

/-- The `ApiResponse` interface from `src/types.ts`. -/
structure ApiResponse where
  success : Bool
  message : Option String := none
  rowId : Option String := none
  errors : Option (List (String × String)) := none
deriving DecidableEq, Repr

/-- Body of an HTTP response to the submission POST: either text that
parses as JSON into an `ApiResponse`-shaped object, or unparseable text
(HTML error pages and the like). -/
inductive ResponseBody where
  | invalidJson (raw : String)
  | json (r : ApiResponse)
deriving DecidableEq, Repr

/-- Outcome of the `fetch` in `submitSchoolData`: the request may reject
with an abort (timeout) or another network error, or resolve with a status
code and a body. -/
inductive FetchOutcome where
  | abortError
  | networkError
  | response (status : Nat) (body : ResponseBody)
deriving DecidableEq, Repr

/-- `Response.ok` of the Fetch API: status in the inclusive range 200-299. -/
def responseOk (status : Nat) : Bool :=
  200 ≤ status && status ≤ 299

/-- The protocol-error message returned when the body is not JSON. -/
def invalidResponseMsg : String :=
  "Submission failed. The server returned an invalid response. Ensure your Google Script permissions are set to \x27Anyone\x27 can access."

/-- The rewritten message for the common Apps Script failure. -/
def sheetTabMsg : String :=
  "Backend Error: The script could not find the sheet tab named \x27Sheet1\x27. Please rename your sheet tab to \x27Sheet1\x27."

/-- `submitSchoolData` from `src/services/api.ts` (lines 16-93), as a
function of the configured-URL check and the fetch outcome (the record
itself only feeds the request body). Every branch returns an
`ApiResponse`; no branch throws. -/
def submitSchoolData (simulationMode : Bool) (simId : Nat)
    (outcome : FetchOutcome) : ApiResponse :=
  if simulationMode then
    { success := true
      message := some "Simulation Success: API URL was not configured. Please see README.md to setup Google Sheets."
      rowId := some ("SIM-" ++ toString simId) }
  else
    match outcome with
    | .abortError =>
      { success := false
        message := some "Request timed out. File uploads might be taking too long." }
    | .networkError =>
      { success := false
        message := some "Network error. Please check your internet connection." }
    | .response status body =>
      if !responseOk status then
        { success := false
          message := some ("Server returned error status: " ++ toString status) }
      else
        match body with
        | .invalidJson _ => { success := false, message := some invalidResponseMsg }
        | .json result =>
          if !result.success &&
              (match result.message with
               | some m => m.containsSubstr "reading \x27getRange\x27"
               | none => false) then
            { result with message := some sheetTabMsg }
          else result

/-- Claim C7: `submitSchoolData` never throws — it is a total function into
`ApiResponse` — and for every non-2xx status it returns the failure
`Server returned error status: <status>`, while a 2xx response whose body
is not parseable JSON returns the protocol-error failure rather than a
parse exception. -/
theorem c7_submit_never_throws (status : Nat) (body : ResponseBody) (raw : String) :
    (responseOk status = false →
      submitSchoolData false 0 (.response status body) =
        { success := false
          message := some ("Server returned error status: " ++ toString status) }) ∧
    (responseOk status = true →
      submitSchoolData false 0 (.response status (.invalidJson raw)) =
        { success := false, message := some invalidResponseMsg }) := by
  constructor
  · intro h
    simp [submitSchoolData, h]
  · intro h
    simp [submitSchoolData, h]

/-- Witness for C7: an HTTP 500 yields the status failure and an HTTP 200
with an HTML body yields the protocol-error failure. -/
theorem c7_submit_never_throws_witness :
    submitSchoolData false 0 (.response 500 (.json { success := true })) =
      { success := false, message := some "Server returned error status: 500" } ∧
    submitSchoolData false 0 (.response 200 (.invalidJson "<html>")) =
      { success := false, message := some invalidResponseMsg } :=
  ⟨(c7_submit_never_throws 500 (.json { success := true }) "<html>").1 rfl,
   (c7_submit_never_throws 200 (.json { success := true }) "<html>").2 rfl⟩

/-- The thirteen field names of `SchoolData`, in declaration order. -/
def schoolDataKeys : List String :=
  [ "schoolName", "udiseCode", "block", "district", "level",
    "principalName", "societyTrustName", "phone", "email",
    "schoolPicture", "principalPicture",
    "registrationCertificatePrimary", "registrationCertificateUpper" ]

/-- A `SchoolData` value as the key-value mapping it is at runtime. -/
def recordPairs (d : SchoolData) : List (String × String) :=
  [ ("schoolName", d.schoolName), ("udiseCode", d.udiseCode),
    ("block", d.block), ("district", d.district), ("level", d.level),
    ("principalName", d.principalName),
    ("societyTrustName", d.societyTrustName),
    ("phone", d.phone), ("email", d.email),
    ("schoolPicture", d.schoolPicture),
    ("principalPicture", d.principalPicture),
    ("registrationCertificatePrimary", d.registrationCertificatePrimary),
    ("registrationCertificateUpper", d.registrationCertificateUpper) ]

/-- The eleven properties declared in the `update_school_data` tool schema,
each with its accessor into an argument mapping. -/
def updateToolFields : List (String × (SchoolDataUpdate → Option String)) :=
  [ ("schoolName", fun u => u.schoolName),
    ("udiseCode", fun u => u.udiseCode),
    ("block", fun u => u.block),
    ("district", fun u => u.district),
    ("level", fun u => u.level),
    ("principalName", fun u => u.principalName),
    ("societyTrustName", fun u => u.societyTrustName),
    ("phone", fun u => u.phone),
    ("email", fun u => u.email),
    ("registrationCertificatePrimary", fun u => u.registrationCertificatePrimary),
    ("registrationCertificateUpper", fun u => u.registrationCertificateUpper) ]

/-- The keys actually present in a tool-invocation argument mapping. -/
def updateArgKeys (u : SchoolDataUpdate) : List String :=
  (updateToolFields.filterMap fun kf => (kf.2 u).map fun v => (kf.1, v)).map Prod.fst

/-- Claim C8: every mutation the conversational core applies to the form
record stays inside `SchoolData`'s fixed key set — after any
`handleVoiceUpdate` the record's key list is exactly the thirteen
enumerated keys, and every key present in any tool-invocation argument
mapping (ranging over the eleven properties of the declared tool schema)
belongs to that set. -/
theorem c8_fixed_key_set (prev : SchoolData) (u : SchoolDataUpdate) :
    (recordPairs (handleVoiceUpdate prev u)).map Prod.fst = schoolDataKeys ∧
    ∀ k ∈ updateArgKeys u, k ∈ schoolDataKeys := by
  constructor
  · rfl
  · intro k hk
    simp only [updateArgKeys, List.mem_map, List.mem_filterMap] at hk
    obtain ⟨⟨k', v⟩, ⟨⟨key, f⟩, hmem, hsome⟩, hfst⟩ := hk
    have hkey : k = key := by
      rcases Option.map_eq_some'.mp hsome with ⟨w, _, hw⟩
      cases hw
      exact hfst ▸ rfl
    subst hkey
    have : ∀ p ∈ updateToolFields, p.1 ∈ schoolDataKeys := by
      intro p hp
      fin_cases hp <;> simp [schoolDataKeys]
    exact this _ hmem

/-- The base64 alphabet used by `btoa`/`atob` (RFC 4648). -/
def base64Alphabet : List Char :=
  "ABCDEFGHIJKLMNOPQRSTUVWXYZabcdefghijklmnopqrstuvwxyz0123456789+/".data

/-- Character for a 6-bit group. -/
def base64Char (n : Nat) : Char := base64Alphabet.getD n 'A'

/-- 6-bit group of an alphabet character (position in the alphabet). -/
def base64Index (c : Char) : Nat := base64Alphabet.indexOf c

/-- `btoa` on a binary string of byte values: three bytes become four
sextet characters; one or two trailing bytes are padded with `=`. -/
def base64EncodeBytes : List Nat → List Char
  | [] => []
  | [a] => [base64Char (a / 4), base64Char (a % 4 * 16), '=', '=']
  | [a, b] => [base64Char (a / 4), base64Char (a % 4 * 16 + b / 16),
               base64Char (b % 16 * 4), '=']
  | a :: b :: c :: rest =>
    base64Char (a / 4) :: base64Char (a % 4 * 16 + b / 16) ::
    base64Char (b % 16 * 4 + c / 64) :: base64Char (c % 64) ::
    base64EncodeBytes rest

/-- `atob` back to byte values: four characters become three bytes, or
fewer at a `=`-padded tail. -/
def base64DecodeChars : List Char → List Nat
  | w :: x :: y :: z :: rest =>
    if z = '=' then
      if y = '=' then
        [base64Index w * 4 + base64Index x / 16]
      else
        [base64Index w * 4 + base64Index x / 16,
         base64Index x % 16 * 16 + base64Index y / 4]
    else
      (base64Index w * 4 + base64Index x / 16) ::
      (base64Index x % 16 * 16 + base64Index y / 4) ::
      (base64Index y % 4 * 64 + base64Index z) ::
      base64DecodeChars rest
  | _ => []

/-- `encode` from `src/components/ChatBot.tsx` (lines 180-187): the byte
array is turned into a binary string with `String.fromCharCode` (the
identity on byte values below 256) and passed to `btoa`, here modelled by
`base64EncodeBytes`. -/
def encode (bytes : List Nat) : String := String.mk (base64EncodeBytes bytes)

/-- `decode` from `src/components/ChatBot.tsx` (lines 170-178): `atob`
(modelled by `base64DecodeChars`), then `charCodeAt` per character
recovers the byte values. -/
def decode (s : String) : List Nat := base64DecodeChars s.data

/-- The alphabet lookup inverts the character table on 6-bit groups. -/
theorem base64Index_base64Char : ∀ n < 64, base64Index (base64Char n) = n := by
  decide

/-- No 6-bit group maps to the padding character. -/
theorem base64Char_ne_pad : ∀ n < 64, base64Char n ≠ '=' := by decide

/-- Claim C10: the audio-transport codec round-trips — for every byte
array (values below 256, as produced by a `Uint8Array`),
`decode (encode bytes) = bytes`. -/
theorem c10_codec_roundtrip : ∀ (bytes : List Nat), (∀ b ∈ bytes, b < 256) →
    decode (encode bytes) = bytes := by
  intro bytes
  show ∀ _, base64DecodeChars (base64EncodeBytes bytes) = bytes
  induction bytes using base64EncodeBytes.induct with
  | case1 => intro _; rfl
  | case2 a =>
    intro h
    have ha : a < 256 := h a (by simp)
    have e1 : base64Index (base64Char (a / 4)) = a / 4 :=
      base64Index_base64Char _ (by omega)
    have e2 : base64Index (base64Char (a % 4 * 16)) = a % 4 * 16 :=
      base64Index_base64Char _ (by omega)
    simp only [base64EncodeBytes, base64DecodeChars, eq_self_iff_true, if_true,
      e1, e2, List.cons.injEq, and_true]
    omega
  | case3 a b =>
    intro h
    have ha : a < 256 := h a (by simp)
    have hb : b < 256 := h b (by simp)
    have e1 : base64Index (base64Char (a / 4)) = a / 4 :=
      base64Index_base64Char _ (by omega)
    have e2 : base64Index (base64Char (a % 4 * 16 + b / 16)) = a % 4 * 16 + b / 16 :=
      base64Index_base64Char _ (by omega)
    have e3 : base64Index (base64Char (b % 16 * 4)) = b % 16 * 4 :=
      base64Index_base64Char _ (by omega)
    have hne : base64Char (b % 16 * 4) ≠ '=' := base64Char_ne_pad _ (by omega)
    simp only [base64EncodeBytes, base64DecodeChars, eq_self_iff_true, if_true,
      if_neg hne, e1, e2, e3, List.cons.injEq, and_true]
    omega
  | case4 a b c rest ih =>
    intro h
    have ha : a < 256 := h a (by simp)
    have hb : b < 256 := h b (by simp)
    have hc : c < 256 := h c (by simp)
    have e1 : base64Index (base64Char (a / 4)) = a / 4 :=
      base64Index_base64Char _ (by omega)
    have e2 : base64Index (base64Char (a % 4 * 16 + b / 16)) = a % 4 * 16 + b / 16 :=
      base64Index_base64Char _ (by omega)
    have e3 : base64Index (base64Char (b % 16 * 4 + c / 64)) = b % 16 * 4 + c / 64 :=
      base64Index_base64Char _ (by omega)
    have e4 : base64Index (base64Char (c % 64)) = c % 64 :=
      base64Index_base64Char _ (by omega)
    have hne : base64Char (c % 64) ≠ '=' := base64Char_ne_pad _ (by omega)
    have hrest : ∀ x ∈ rest, x < 256 := fun x hx => h x (by simp [hx])
    simp only [base64EncodeBytes, base64DecodeChars, if_neg hne, e1, e2, e3, e4,
      ih hrest]
    simp only [List.cons.injEq, and_true]
    refine ⟨by omega, by omega, by omega⟩

/-- Witness for C10 on a concrete byte array exercising both a full
3-byte group and a padded tail. -/
theorem c10_codec_roundtrip_witness :
    decode (encode [72, 101, 0, 255]) = [72, 101, 0, 255] :=
  c10_codec_roundtrip [72, 101, 0, 255] (by decide)

end SchoolApp
